import Mathlib

/-!
# Verification of the Branching Chat gateway core (backend/main.py)

A shallow embedding of the provider-routing and dispatch layer of the
Branching Chat backend: the routing-spec parser (`parse_model_spec`),
the three provider adapters (`call_ollama`, `call_openai`,
`call_deepseek`), the dispatcher (`call_llm`) and the gateway endpoint
(`chat`).

Conventions of the embedding:
* Python strings are Lean `String`s; `str.strip()` and `str.lower()`
  are modelled by `pyStrip`/`pyLower` over the ASCII whitespace set and
  ASCII case folding used by the provider names in the code.
* The single outbound HTTP call of each adapter is modelled by an
  oracle function from the adapter's outbound payload to an
  `HttpOutcome`.  The JSON decoder of the `requests` library is library
  code, so a response carries both its raw text and the result of
  decoding that text (`Option Json`).
* A raised `HTTPException` is the `Except.error (.httpExc _)` case of
  an adapter result; exceptions that escape the `HTTPException`
  taxonomy (an uncaught `TypeError`, or `resp.json()` raising a decode
  error) are separate constructors of `PyFailure`.
* Each adapter also reports the number of outbound network calls its
  control path performs (0 or 1), to express "no network call
  attempted".
-/

namespace BranchingChat

/-- Pydantic model `Message`: a chat message with a role and content. -/
structure Message where
  role : String
  content : String
deriving Repr, DecidableEq

/-- Pydantic model `ChatRequest`: thread id, full history, optional model spec. -/
structure ChatRequest where
  thread_id : String
  messages : List Message
  model : Option String
deriving Repr, DecidableEq

/-- Pydantic model `ChatResponse`: echoed thread id and the reply text. -/
structure ChatResponse where
  thread_id : String
  reply : String
deriving Repr, DecidableEq

/-- A raised `fastapi.HTTPException`: a status code and a detail string. -/
structure HTTPException where
  status_code : Nat
  detail : String
deriving Repr, DecidableEq

/-- Process-wide configuration read from the environment at startup:
`DEFAULT_OLLAMA_MODEL`, `OLLAMA_URL`, the two optional API keys and
`DEFAULT_MODEL_SPEC`.  A missing environment variable is `none`; an
environment variable set to the empty string is `some ""` (falsy in
Python). -/
structure Config where
  ollamaModel : String
  ollamaUrl : String
  openaiKey : Option String
  deepseekKey : Option String
  defaultModelSpec : String
deriving Repr

/-- Python truthiness test `not key` for an optional string credential:
true when the variable is unset or set to the empty string. -/
def falsyKey : Option String → Bool
  | none => true
  | some s => s.isEmpty

/-- The whitespace characters removed by Python `str.strip()` (ASCII part). -/
def pyIsSpace (c : Char) : Bool :=
  c = ' ' || c = '\t' || c = '\n' || c = '\r' || c = '\x0b' || c = '\x0c'

/-- Python `str.strip()`: drop leading and trailing whitespace. -/
def pyStrip (s : String) : String :=
  ⟨((s.data.dropWhile pyIsSpace).reverse.dropWhile pyIsSpace).reverse⟩

/-- Python `str.lower()` restricted to ASCII case folding. -/
def pyLower (s : String) : String :=
  ⟨s.data.map Char.toLower⟩

/-- Python `spec.split(sep, 1)` when the separator occurs: the part before the
first occurrence of `sep` and everything after it; `none` when `sep`
does not occur. -/
def splitOnFirst (sep : Char) : List Char → Option (List Char × List Char)
  | [] => none
  | c :: cs =>
    if c = sep then some ([], cs)
    else match splitOnFirst sep cs with
      | none => none
      | some (l, r) => some (c :: l, r)

/-- The function `parse_model_spec(spec)`: substitute `DEFAULT_MODEL_SPEC` for an
absent or empty spec, split on the first `/`; with no separator the
whole token is a provider name given its per-provider default model,
with a separator the left part is the provider (stripped, lowered) and
the right part the model name (stripped).  An unknown provider without
a separator raises HTTP 400 with the spec quoted in the detail. -/
def parse_model_spec (cfg : Config) (spec? : Option String) :
    Except HTTPException (String × String) :=
  let spec : String :=
    match spec? with
    | none => cfg.defaultModelSpec
    | some s => if s.isEmpty then cfg.defaultModelSpec else s
  match splitOnFirst '/' spec.data with
  | none =>
    let provider := pyLower (pyStrip spec)
    if provider = "ollama" then .ok (provider, cfg.ollamaModel)
    else if provider = "openai" then .ok (provider, "gpt-4.1-mini")
    else if provider = "deepseek" then .ok (provider, "deepseek-chat")
    else .error ⟨400, "Unknown provider in model spec: '" ++ spec ++ "'"⟩
  | some (l, r) =>
    .ok (pyLower (pyStrip ⟨l⟩), pyStrip ⟨r⟩)

/-- A JSON value, as produced by `resp.json()`. -/
inductive Json where
  | null : Json
  | bool (b : Bool) : Json
  | num (n : Int) : Json
  | str (s : String) : Json
  | arr (xs : List Json) : Json
  | obj (fields : List (String × Json)) : Json
deriving Repr

/-- The Python exceptions that subscripting a decoded JSON value can raise. -/
inductive PyExc where
  | keyError : PyExc
  | indexError : PyExc
  | typeError : PyExc
deriving Repr, DecidableEq

/-- Subscripting `data[k]` for a string key `k`: a key lookup on a dict (raising
`KeyError` when absent), a `TypeError` on every other value (list
indices must be integers; numbers, strings, booleans and `None` are not
subscriptable by string). -/
def Json.getField (j : Json) (k : String) : Except PyExc Json :=
  match j with
  | .obj fields =>
    match fields.lookup k with
    | some v => .ok v
    | none => .error .keyError
  | _ => .error .typeError

/-- Subscripting `data[0]`: element 0 of a list (raising `IndexError` when empty),
the first character of a string (as a one-character string, raising
`IndexError` when empty), a `KeyError` on a dict (JSON object keys are
strings, so the integer key 0 is never present), a `TypeError`
otherwise. -/
def Json.getZero (j : Json) : Except PyExc Json :=
  match j with
  | .arr xs =>
    match xs with
    | x :: _ => .ok x
    | [] => .error .indexError
  | .str s =>
    match s.data with
    | c :: _ => .ok (.str ⟨[c]⟩)
    | [] => .error .indexError
  | .obj _ => .error .keyError
  | _ => .error .typeError

/-- Lookup `data["message"]["content"]`, the Ollama reply path. -/
def extract_ollama (data : Json) : Except PyExc Json := do
  let m ← data.getField "message"
  m.getField "content"

/-- Lookup `data["choices"][0]["message"]["content"]`, the OpenAI and DeepSeek
reply path. -/
def extract_choices (data : Json) : Except PyExc Json := do
  let cs ← data.getField "choices"
  let c0 ← cs.getZero
  let m ← c0.getField "message"
  m.getField "content"

/-- One entry of the outbound `messages` list: `{"role": ..., "content": ...}`. -/
structure WireMessage where
  role : String
  content : String
deriving Repr, DecidableEq

/-- The list `[{"role": m.role, "content": m.content} for m in messages]`. -/
def wireMessages (messages : List Message) : List WireMessage :=
  messages.map (fun m => ⟨m.role, m.content⟩)

/-- The Ollama request payload: model, `stream: false`, messages. -/
structure OllamaPayload where
  model : String
  stream : Bool
  messages : List WireMessage
deriving Repr, DecidableEq

/-- The payload dict built by `call_ollama`. -/
def ollamaPayload (model_name : String) (messages : List Message) : OllamaPayload :=
  { model := model_name, stream := false, messages := wireMessages messages }

/-- The OpenAI request payload: model and messages. -/
structure OpenAIPayload where
  model : String
  messages : List WireMessage
deriving Repr, DecidableEq

/-- The payload dict built by `call_openai`. -/
def openaiPayload (model_name : String) (messages : List Message) : OpenAIPayload :=
  { model := model_name, messages := wireMessages messages }

/-- The DeepSeek request payload: model and messages. -/
structure DeepseekPayload where
  model : String
  messages : List WireMessage
deriving Repr, DecidableEq

/-- The payload dict built by `call_deepseek`. -/
def deepseekPayload (model_name : String) (messages : List Message) : DeepseekPayload :=
  { model := model_name, messages := wireMessages messages }

/-- An HTTP response as seen by the adapter: the status code, the raw
body text (`resp.text`) and the result of decoding that text as JSON
(`resp.json()`; `none` when the body is not valid JSON, in which case
`resp.json()` raises a decode error). -/
structure HttpResponse where
  status_code : Nat
  text : String
  json : Option Json
deriving Repr

/-- The outcome of the single `requests.post` call: a transport-level
`requests.RequestException` with its message, or a response. -/
inductive HttpOutcome where
  | exn (msg : String) : HttpOutcome
  | resp (r : HttpResponse) : HttpOutcome
deriving Repr

/-- The test `resp.ok` of the `requests` library: false exactly when
`raise_for_status` would raise, i.e. for status codes 400–599. -/
def respOk (status : Nat) : Bool :=
  !(400 ≤ status && status < 600)

/-- A failure escaping an adapter: a raised `fastapi.HTTPException`, a
JSON decode error raised by `resp.json()` outside any handler, or an
uncaught subscripting exception (e.g. a `TypeError`) — the latter two
escape the `HTTPException` taxonomy entirely. -/
inductive PyFailure where
  | httpExc (e : HTTPException) : PyFailure
  | decodeError (body : String) : PyFailure
  | uncaught (e : PyExc) : PyFailure
deriving Repr

/-- The network oracles for the three providers: the outcome of posting
a given payload to each provider's endpoint. -/
structure Network where
  ollama : OllamaPayload → HttpOutcome
  openai : OpenAIPayload → HttpOutcome
  deepseek : DeepseekPayload → HttpOutcome

/-- The adapter `call_ollama(model_name, messages)`: build the payload, post it, and
either forward a non-success status with the raw body as detail,
extract `data["message"]["content"]` (catching only `KeyError` into
HTTP 500 `"Unexpected Ollama response format"`), or fail.  The second
component counts outbound network calls. -/
def call_ollama (net : Network) (model_name : String) (messages : List Message) :
    Except PyFailure Json × Nat :=
  match net.ollama (ollamaPayload model_name messages) with
  | .exn e => (.error (.httpExc ⟨502, "Ollama connection error: " ++ e⟩), 1)
  | .resp r =>
    if respOk r.status_code then
      match r.json with
      | none => (.error (.decodeError r.text), 1)
      | some data =>
        match extract_ollama data with
        | .ok v => (.ok v, 1)
        | .error .keyError =>
          (.error (.httpExc ⟨500, "Unexpected Ollama response format"⟩), 1)
        | .error e => (.error (.uncaught e), 1)
    else (.error (.httpExc ⟨r.status_code, r.text⟩), 1)

/-- The adapter `call_openai(model_name, messages)`: fail with HTTP 500
`"OPENAI_API_KEY is not configured"` before any network call when the
key is falsy; otherwise post the payload and either forward a
non-success status with the raw body, extract
`data["choices"][0]["message"]["content"]` (catching `KeyError` and
`IndexError` into HTTP 500 `"Unexpected OpenAI response format"`), or
fail. -/
def call_openai (cfg : Config) (net : Network) (model_name : String)
    (messages : List Message) : Except PyFailure Json × Nat :=
  if falsyKey cfg.openaiKey then
    (.error (.httpExc ⟨500, "OPENAI_API_KEY is not configured"⟩), 0)
  else
    match net.openai (openaiPayload model_name messages) with
    | .exn e => (.error (.httpExc ⟨502, "OpenAI connection error: " ++ e⟩), 1)
    | .resp r =>
      if respOk r.status_code then
        match r.json with
        | none => (.error (.decodeError r.text), 1)
        | some data =>
          match extract_choices data with
          | .ok v => (.ok v, 1)
          | .error .keyError =>
            (.error (.httpExc ⟨500, "Unexpected OpenAI response format"⟩), 1)
          | .error .indexError =>
            (.error (.httpExc ⟨500, "Unexpected OpenAI response format"⟩), 1)
          | .error e => (.error (.uncaught e), 1)
      else (.error (.httpExc ⟨r.status_code, r.text⟩), 1)

/-- The adapter `call_deepseek(model_name, messages)`: fail with HTTP 500
`"DEESEEK_API_KEY is not configured"` before any network call when the
key is falsy; otherwise post the payload and either forward a
non-success status with the raw body, extract
`data["choices"][0]["message"]["content"]` (catching `KeyError` and
`IndexError` into HTTP 500 `"Unexpected DeepSeek response format"`), or
fail. -/
def call_deepseek (cfg : Config) (net : Network) (model_name : String)
    (messages : List Message) : Except PyFailure Json × Nat :=
  if falsyKey cfg.deepseekKey then
    (.error (.httpExc ⟨500, "DEESEEK_API_KEY is not configured"⟩), 0)
  else
    match net.deepseek (deepseekPayload model_name messages) with
    | .exn e => (.error (.httpExc ⟨502, "DeepSeek connection error: " ++ e⟩), 1)
    | .resp r =>
      if respOk r.status_code then
        match r.json with
        | none => (.error (.decodeError r.text), 1)
        | some data =>
          match extract_choices data with
          | .ok v => (.ok v, 1)
          | .error .keyError =>
            (.error (.httpExc ⟨500, "Unexpected DeepSeek response format"⟩), 1)
          | .error .indexError =>
            (.error (.httpExc ⟨500, "Unexpected DeepSeek response format"⟩), 1)
          | .error e => (.error (.uncaught e), 1)
      else (.error (.httpExc ⟨r.status_code, r.text⟩), 1)

/-- The dispatcher `call_llm(messages, model_spec)`: parse the spec, then dispatch on
the provider name, raising HTTP 400 `"Unsupported provider: '...'"` for
a provider outside the known set. -/
def call_llm (cfg : Config) (net : Network) (messages : List Message)
    (model_spec : Option String) : Except PyFailure Json × Nat :=
  match parse_model_spec cfg model_spec with
  | .error e => (.error (.httpExc e), 0)
  | .ok (provider, model_name) =>
    if provider = "ollama" then call_ollama net model_name messages
    else if provider = "openai" then call_openai cfg net model_name messages
    else if provider = "deepseek" then call_deepseek cfg net model_name messages
    else (.error (.httpExc ⟨400, "Unsupported provider: '" ++ provider ++ "'"⟩), 0)

/-- A gateway failure: a Python failure propagating out of `call_llm`,
or the response-model validation failing because the extracted reply
value is not a string. -/
inductive GatewayFailure where
  | py (e : PyFailure) : GatewayFailure
  | validation (v : Json) : GatewayFailure
deriving Repr

/-- The `POST /api/chat` endpoint: call `call_llm` and wrap the reply
in a `ChatResponse` echoing the request's thread id. -/
def chat (cfg : Config) (net : Network) (req : ChatRequest) :
    Except GatewayFailure ChatResponse :=
  match (call_llm cfg net req.messages req.model).1 with
  | .error e => .error (.py e)
  | .ok (.str s) => .ok { thread_id := req.thread_id, reply := s }
  | .ok v => .error (.validation v)

/-- The HTTP status the framework sends for a gateway failure: the
status of a raised `HTTPException`, and the generic 500 internal server
error for any exception outside that taxonomy. -/
def httpStatusOf : GatewayFailure → Nat
  | .py (.httpExc e) => e.status_code
  | _ => 500

/-- Leading-match test: `listLeads n h` is true when `n` is an initial
segment of `h`. -/
def listLeads : List Char → List Char → Bool
  | [], _ => true
  | _ :: _, [] => false
  | a :: as, b :: bs => a = b && listLeads as bs

/-- Occurrence test: `listOccurs n h` is true when `n` occurs as a
contiguous run inside `h`. -/
def listOccurs (n : List Char) : List Char → Bool
  | [] => listLeads n []
  | c :: t => listLeads n (c :: t) || listOccurs n t

/-- Substring test: `strOccurs needle hay` is true when `needle` occurs
as a contiguous substring of `hay` (Python `needle in hay`). -/
def strOccurs (needle hay : String) : Bool :=
  listOccurs needle.data hay.data

/-- A network whose three provider endpoints all produce the same fixed
outcome, whatever the payload. -/
def constNet (out : HttpOutcome) : Network :=
  { ollama := fun _ => out, openai := fun _ => out, deepseek := fun _ => out }

/-- A network on which every outbound call fails at the transport level. -/
def deadNet : Network :=
  constNet (.exn "connection refused")

/-- A concrete configuration with both cloud credentials set, for
evaluating the embedding on closed inputs. -/
def testConfig : Config :=
  { ollamaModel := "qwen2.5:7b"
    ollamaUrl := "http://localhost:11434/api/chat"
    openaiKey := some "sk-test"
    deepseekKey := some "sk-test-2"
    defaultModelSpec := "ollama/qwen2.5:7b" }

/-- A concrete configuration with neither cloud credential set. -/
def noKeysConfig : Config :=
  { ollamaModel := "qwen2.5:7b"
    ollamaUrl := "http://localhost:11434/api/chat"
    openaiKey := none
    deepseekKey := none
    defaultModelSpec := "ollama/qwen2.5:7b" }

/-- A well-formed Ollama response body: `{"message": {"content": "hello"}}`. -/
def okData : Json :=
  .obj [("message", .obj [("content", .str "hello")])]

/-- A network on which every call succeeds with `okData`. -/
def okNet : Network :=
  constNet (.resp
    { status_code := 200
      text := "\x7b\"message\": \x7b\"content\": \"hello\"\x7d\x7d"
      json := some okData })

/-! ## Helper lemmas -/

theorem splitOnFirst_ne_nil {sep : Char} {cs : List Char} {p : List Char × List Char}
    (h : splitOnFirst sep cs = some p) : cs ≠ [] := by
  intro hc
  subst hc
  simp [splitOnFirst] at h

theorem splitOnFirst_append {sep : Char} (l r : List Char) (hl : sep ∉ l) :
    splitOnFirst sep (l ++ sep :: r) = some (l, r) := by
  induction l with
  | nil => simp [splitOnFirst]
  | cons c cs ih =>
    have hc : c ≠ sep := by
      intro h
      exact hl (h ▸ List.mem_cons_self _ _)
    have hcs : sep ∉ cs := fun h => hl (List.mem_cons_of_mem _ h)
    simp [splitOnFirst, hc, ih hcs]

theorem isEmpty_false_of_data_ne {s : String} (h : s.data ≠ []) :
    s.isEmpty = false := by
  rw [Bool.eq_false_iff]
  intro he
  apply h
  have hs : s = "" := (String.isEmpty_iff s).1 he
  rw [hs]

/-- On a spec with a separator, the parser returns the stripped, lowered
left part and the stripped right part. -/
theorem parse_model_spec_slash (cfg : Config) {spec : String} {l r : List Char}
    (hsplit : splitOnFirst '/' spec.data = some (l, r)) :
    parse_model_spec cfg (some spec) = .ok (pyLower (pyStrip ⟨l⟩), pyStrip ⟨r⟩) := by
  have hne : spec.isEmpty = false :=
    isEmpty_false_of_data_ne (splitOnFirst_ne_nil hsplit)
  unfold parse_model_spec
  simp [hne, hsplit]

/-- Every failure of `call_llm` propagates to the gateway response
unchanged. -/
theorem chat_error (cfg : Config) (net : Network) (req : ChatRequest) (e : PyFailure)
    (h : (call_llm cfg net req.messages req.model).1 = .error e) :
    chat cfg net req = .error (.py e) := by
  unfold chat
  rw [h]

theorem listLeads_self_append (n t : List Char) : listLeads n (n ++ t) = true := by
  induction n with
  | nil => rfl
  | cons a as ih => simp [listLeads, ih]

theorem listOccurs_of_listLeads {n h : List Char} (hl : listLeads n h = true) :
    listOccurs n h = true := by
  cases h with
  | nil => simpa [listOccurs] using hl
  | cons c t => simp [listOccurs, hl]

theorem listOccurs_append_left {n h : List Char} (pre : List Char)
    (ho : listOccurs n h = true) : listOccurs n (pre ++ h) = true := by
  induction pre with
  | nil => simpa using ho
  | cons c t ih => simp [listOccurs, ih]

/-- A string occurs as a substring of any concatenation that has it in
the middle. -/
theorem strOccurs_middle (a p b : String) : strOccurs p (a ++ p ++ b) = true := by
  unfold strOccurs
  have hd : (a ++ p ++ b).data = a.data ++ (p.data ++ b.data) := by
    simp [String.data_append, List.append_assoc]
  rw [hd]
  exact listOccurs_append_left a.data
    (listOccurs_of_listLeads (listLeads_self_append _ _))

/-! ## Claim theorems -/

/-- C4: for every spec string of the form `p/m` where `p`, after
stripping surrounding whitespace and lowercasing, is in the known
provider set, `parse_model_spec` returns the pair of the stripped,
case-folded provider and the stripped model name, used verbatim with no
validation of model existence (the result does not depend on which
model name is supplied). -/
theorem C4_parse_known_slash (cfg : Config) (p m : String)
    (hp : '/' ∉ p.data)
    (_hknown : pyLower (pyStrip p) = "ollama" ∨ pyLower (pyStrip p) = "openai" ∨
      pyLower (pyStrip p) = "deepseek") :
    parse_model_spec cfg (some (p ++ "/" ++ m)) =
      .ok (pyLower (pyStrip p), pyStrip m) := by
  have hdata : (p ++ "/" ++ m).data = p.data ++ '/' :: m.data := by
    simp [String.data_append]
  have hsplit : splitOnFirst '/' (p ++ "/" ++ m).data = some (p.data, m.data) := by
    rw [hdata]
    exact splitOnFirst_append p.data m.data hp
  exact parse_model_spec_slash cfg hsplit

/-- Witness for C4 at `p = " Ollama "`, `m = " qwen2.5:7b "`. -/
theorem C4_parse_known_slash_witness :
    parse_model_spec testConfig (some (" Ollama " ++ "/" ++ " qwen2.5:7b ")) =
      .ok ("ollama", "qwen2.5:7b") :=
  C4_parse_known_slash testConfig " Ollama " " qwen2.5:7b " (by decide)
    (Or.inl rfl)

/-- C8: parsing an absent spec and parsing the empty string both yield
the same result as parsing the configured `DEFAULT_MODEL_SPEC`, and
parsing a bare known provider name with no separator succeeds with that
provider's built-in default model name. -/
theorem C8_parse_defaults (cfg : Config) :
    parse_model_spec cfg none = parse_model_spec cfg (some "") ∧
    parse_model_spec cfg (some "") = parse_model_spec cfg (some cfg.defaultModelSpec) ∧
    parse_model_spec cfg (some "ollama") = .ok ("ollama", cfg.ollamaModel) ∧
    parse_model_spec cfg (some "openai") = .ok ("openai", "gpt-4.1-mini") ∧
    parse_model_spec cfg (some "deepseek") = .ok ("deepseek", "deepseek-chat") := by
  refine ⟨?_, ?_, rfl, rfl, rfl⟩
  · rfl
  · cases hd : cfg.defaultModelSpec.isEmpty with
    | true =>
      have : cfg.defaultModelSpec = "" := (String.isEmpty_iff _).1 hd
      rw [this]
    | false => simp [parse_model_spec, hd, show ("" : String).isEmpty = true from rfl]

/-- C1 counterexample: the parser does not fail on
`"made-up-provider/x"`; it succeeds, and the 400 error is raised later
by the dispatcher with a detail that carries only the provider token,
not the original spec string. -/
theorem C1_counterexample :
    parse_model_spec testConfig (some "made-up-provider/x") =
      .ok ("made-up-provider", "x") ∧
    (call_llm testConfig deadNet [] (some "made-up-provider/x")).1 =
      .error (.httpExc ⟨400, "Unsupported provider: 'made-up-provider'"⟩) ∧
    strOccurs "made-up-provider/x" "Unsupported provider: 'made-up-provider'" = false := by
  exact ⟨rfl, rfl, by decide⟩

/-- C1 amended: for every spec string containing a separator whose
stripped, lowercased provider token is outside the known set, the
parser succeeds, and the dispatcher `call_llm` fails with HTTP 400
`unsupported_provider` whose detail contains the provider token (but
not, in general, the original spec string). -/
theorem C1_unknown_provider_slash (cfg : Config) (net : Network)
    (messages : List Message) (spec : String) (l r : List Char)
    (hsplit : splitOnFirst '/' spec.data = some (l, r))
    (h1 : pyLower (pyStrip ⟨l⟩) ≠ "ollama")
    (h2 : pyLower (pyStrip ⟨l⟩) ≠ "openai")
    (h3 : pyLower (pyStrip ⟨l⟩) ≠ "deepseek") :
    parse_model_spec cfg (some spec) = .ok (pyLower (pyStrip ⟨l⟩), pyStrip ⟨r⟩) ∧
    (call_llm cfg net messages (some spec)).1 =
      .error (.httpExc ⟨400,
        "Unsupported provider: '" ++ pyLower (pyStrip ⟨l⟩) ++ "'"⟩) ∧
    strOccurs (pyLower (pyStrip ⟨l⟩))
      ("Unsupported provider: '" ++ pyLower (pyStrip ⟨l⟩) ++ "'") = true := by
  have hp := parse_model_spec_slash cfg hsplit
  refine ⟨hp, ?_, strOccurs_middle _ _ _⟩
  unfold call_llm
  rw [hp]
  simp [h1, h2, h3]

/-- Witness for the amended C1 at spec `"made-up-provider/x"`. -/
theorem C1_unknown_provider_slash_witness :
    (call_llm testConfig deadNet [] (some "made-up-provider/x")).1 =
      .error (.httpExc ⟨400, "Unsupported provider: 'made-up-provider'"⟩) ∧
    strOccurs "made-up-provider" "Unsupported provider: 'made-up-provider'" = true := by
  have h := C1_unknown_provider_slash testConfig deadNet [] "made-up-provider/x"
    "made-up-provider".data "x".data rfl (by decide) (by decide) (by decide)
  exact ⟨h.2.1, h.2.2⟩

/-- C2: whenever the backend responds with a non-success HTTP status
(the statuses for which `resp.ok` is false, 400–599, all of which are
valid HTTP statuses), every adapter raises an `HTTPException` carrying
the upstream status and the raw response body as detail, the gateway
propagates the failure unchanged, and the HTTP status of the gateway
response is exactly the upstream status (the 502 fallback for an
invalid status is never exercised, because the transport layer only
delivers valid statuses). -/
theorem C2_backend_error (cfg : Config) (net : Network) (mn : String)
    (msgs : List Message) (s : Nat) (body : String) (j : Option Json)
    (h4 : 400 ≤ s) (h6 : s < 600)
    (hO : net.ollama (ollamaPayload mn msgs) = .resp ⟨s, body, j⟩)
    (hA : net.openai (openaiPayload mn msgs) = .resp ⟨s, body, j⟩)
    (hD : net.deepseek (deepseekPayload mn msgs) = .resp ⟨s, body, j⟩)
    (hko : falsyKey cfg.openaiKey = false)
    (hkd : falsyKey cfg.deepseekKey = false) :
    (call_ollama net mn msgs).1 = .error (.httpExc ⟨s, body⟩) ∧
    (call_openai cfg net mn msgs).1 = .error (.httpExc ⟨s, body⟩) ∧
    (call_deepseek cfg net mn msgs).1 = .error (.httpExc ⟨s, body⟩) ∧
    (∀ req e, (call_llm cfg net req.messages req.model).1 = .error e →
      chat cfg net req = .error (.py e)) ∧
    httpStatusOf (.py (.httpExc ⟨s, body⟩)) = s := by
  have hnotok : respOk s = false := by
    simp [respOk, h4, h6]
  refine ⟨?_, ?_, ?_, fun req e h => chat_error cfg net req e h, rfl⟩
  · unfold call_ollama
    rw [hO]
    simp [hnotok]
  · unfold call_openai
    rw [hko]
    rw [hA]
    simp [hnotok]
  · unfold call_deepseek
    rw [hkd]
    rw [hD]
    simp [hnotok]

/-- Witness for C2 at upstream status 503 with body `"oops"`. -/
theorem C2_backend_error_witness :
    (call_ollama (constNet (.resp ⟨503, "oops", none⟩)) "m" []).1 =
      .error (.httpExc ⟨503, "oops"⟩) ∧
    (call_openai testConfig (constNet (.resp ⟨503, "oops", none⟩)) "m" []).1 =
      .error (.httpExc ⟨503, "oops"⟩) ∧
    httpStatusOf (.py (.httpExc ⟨503, "oops"⟩)) = 503 := by
  have h := C2_backend_error testConfig (constNet (.resp ⟨503, "oops", none⟩))
    "m" [] 503 "oops" none (by decide) (by decide) rfl rfl rfl rfl rfl
  exact ⟨h.1, h.2.1, h.2.2.2.2⟩

/-- C3: whenever the backend responds with a success status whose JSON
body lacks the reply text at that provider's documented response path
(a missing or renamed field, i.e. a `KeyError`, or an empty `choices`
list, i.e. an `IndexError`), the invoked adapter raises the normalized
HTTP 500 "Unexpected ... response format" failure, and the gateway
surfaces it with HTTP status 500.  Each adapter's conclusion is
conditioned only on its own response path failing on the body, so a
body well-formed for one provider but malformed for another is
covered. -/
theorem C3_malformed_response (cfg : Config) (net : Network) (mn : String)
    (msgs : List Message) (r : HttpResponse) (data : Json)
    (hst : respOk r.status_code = true)
    (hj : r.json = some data)
    (hO : net.ollama (ollamaPayload mn msgs) = .resp r)
    (hA : net.openai (openaiPayload mn msgs) = .resp r)
    (hD : net.deepseek (deepseekPayload mn msgs) = .resp r)
    (hko : falsyKey cfg.openaiKey = false)
    (hkd : falsyKey cfg.deepseekKey = false) :
    (extract_ollama data = .error .keyError →
      (call_ollama net mn msgs).1 =
        .error (.httpExc ⟨500, "Unexpected Ollama response format"⟩)) ∧
    (extract_choices data = .error .keyError ∨
        extract_choices data = .error .indexError →
      (call_openai cfg net mn msgs).1 =
        .error (.httpExc ⟨500, "Unexpected OpenAI response format"⟩)) ∧
    (extract_choices data = .error .keyError ∨
        extract_choices data = .error .indexError →
      (call_deepseek cfg net mn msgs).1 =
        .error (.httpExc ⟨500, "Unexpected DeepSeek response format"⟩)) ∧
    (∀ d, httpStatusOf (.py (.httpExc ⟨500, d⟩)) = 500) := by
  refine ⟨?_, ?_, ?_, fun _ => rfl⟩
  · intro hexO
    unfold call_ollama
    rw [hO]
    simp [hst, hj, hexO]
  · intro hexC
    unfold call_openai
    rw [hko]
    rw [hA]
    rcases hexC with hc | hc <;> simp [hst, hj, hc]
  · intro hexC
    unfold call_deepseek
    rw [hkd]
    rw [hD]
    rcases hexC with hc | hc <;> simp [hst, hj, hc]

/-- Witness for C3: an OpenAI invocation receiving an Ollama-shaped
body (well-formed for Ollama, missing the `choices` path) fails with
the OpenAI 500 failure, and an Ollama invocation receiving the empty
JSON object fails with the Ollama 500 failure, as does a DeepSeek
invocation. -/
theorem C3_malformed_response_witness :
    (call_openai testConfig okNet "m" []).1 =
      .error (.httpExc ⟨500, "Unexpected OpenAI response format"⟩) ∧
    (call_ollama (constNet (.resp ⟨200, "\x7b\x7d", some (.obj [])⟩)) "m" []).1 =
      .error (.httpExc ⟨500, "Unexpected Ollama response format"⟩) ∧
    (call_deepseek testConfig (constNet (.resp ⟨200, "\x7b\x7d", some (.obj [])⟩)) "m" []).1 =
      .error (.httpExc ⟨500, "Unexpected DeepSeek response format"⟩) := by
  have h1 := C3_malformed_response testConfig okNet "m" []
    ⟨200, "\x7b\"message\": \x7b\"content\": \"hello\"\x7d\x7d", some okData⟩
    okData rfl rfl rfl rfl rfl rfl rfl
  have h2 := C3_malformed_response testConfig
    (constNet (.resp ⟨200, "\x7b\x7d", some (.obj [])⟩)) "m" []
    ⟨200, "\x7b\x7d", some (.obj [])⟩ (.obj []) rfl rfl rfl rfl rfl rfl rfl
  exact ⟨h1.2.1 (Or.inl rfl), h2.1 rfl, h2.2.2.1 (Or.inl rfl)⟩

/-- C5: for every message history and every adapter, the sequence of
(role, content) pairs in the outbound payload is exactly the input
sequence, in order, with no reordering, deduplication or modification. -/
theorem C5_message_order (mn : String) (msgs : List Message) :
    (ollamaPayload mn msgs).messages.map (fun w => (w.role, w.content)) =
      msgs.map (fun m => (m.role, m.content)) ∧
    (openaiPayload mn msgs).messages.map (fun w => (w.role, w.content)) =
      msgs.map (fun m => (m.role, m.content)) ∧
    (deepseekPayload mn msgs).messages.map (fun w => (w.role, w.content)) =
      msgs.map (fun m => (m.role, m.content)) := by
  refine ⟨?_, ?_, ?_⟩ <;>
    · simp only [ollamaPayload, openaiPayload, deepseekPayload, wireMessages,
        List.map_map]
      rfl

/-- C6: whenever the corresponding credential is unset (or empty, which
is falsy in Python), each cloud adapter fails immediately with the HTTP
500 unconfigured failure and performs zero network calls, and the
gateway surfaces the failure with status 500. -/
theorem C6_unconfigured (cfg : Config) (net : Network) (mn : String)
    (msgs : List Message)
    (ho : falsyKey cfg.openaiKey = true)
    (hd : falsyKey cfg.deepseekKey = true) :
    call_openai cfg net mn msgs =
      (.error (.httpExc ⟨500, "OPENAI_API_KEY is not configured"⟩), 0) ∧
    call_deepseek cfg net mn msgs =
      (.error (.httpExc ⟨500, "DEESEEK_API_KEY is not configured"⟩), 0) ∧
    httpStatusOf (.py (.httpExc ⟨500, "OPENAI_API_KEY is not configured"⟩)) = 500 ∧
    httpStatusOf (.py (.httpExc ⟨500, "DEESEEK_API_KEY is not configured"⟩)) = 500 := by
  refine ⟨?_, ?_, rfl, rfl⟩
  · unfold call_openai
    rw [ho]
    simp
  · unfold call_deepseek
    rw [hd]
    simp

/-- Witness for C6 with both credentials unset. -/
theorem C6_unconfigured_witness :
    call_openai noKeysConfig deadNet "gpt-x" [] =
      (.error (.httpExc ⟨500, "OPENAI_API_KEY is not configured"⟩), 0) ∧
    call_deepseek noKeysConfig deadNet "deepseek-chat" [] =
      (.error (.httpExc ⟨500, "DEESEEK_API_KEY is not configured"⟩), 0) := by
  have h1 := C6_unconfigured noKeysConfig deadNet "gpt-x" [] rfl rfl
  have h2 := C6_unconfigured noKeysConfig deadNet "deepseek-chat" [] rfl rfl
  exact ⟨h1.1, h2.2.1⟩

/-- C7: every gateway request yields either one complete reply or one
structured failure (the result of `chat` is always exactly one of the
two cases, never a partial reply), and when the reply text is located
at the provider's response path it is returned verbatim, with no
trimming, truncation or reformatting: end-to-end through `chat` for the
Ollama route, and at the adapter boundary for the two cloud routes. -/
theorem C7_complete_or_failure (cfg : Config) (net : Network) (req : ChatRequest) :
    ((∃ resp, chat cfg net req = .ok resp) ∨ (∃ e, chat cfg net req = .error e)) ∧
    (∀ mn r data s,
      parse_model_spec cfg req.model = .ok ("ollama", mn) →
      net.ollama (ollamaPayload mn req.messages) = .resp r →
      respOk r.status_code = true →
      r.json = some data →
      extract_ollama data = .ok (.str s) →
      chat cfg net req = .ok ⟨req.thread_id, s⟩) ∧
    (∀ mn msgs r data v,
      falsyKey cfg.openaiKey = false →
      net.openai (openaiPayload mn msgs) = .resp r →
      respOk r.status_code = true →
      r.json = some data →
      extract_choices data = .ok v →
      (call_openai cfg net mn msgs).1 = .ok v) ∧
    (∀ mn msgs r data v,
      falsyKey cfg.deepseekKey = false →
      net.deepseek (deepseekPayload mn msgs) = .resp r →
      respOk r.status_code = true →
      r.json = some data →
      extract_choices data = .ok v →
      (call_deepseek cfg net mn msgs).1 = .ok v) := by
  refine ⟨?_, ?_, ?_, ?_⟩
  · cases h : chat cfg net req with
    | ok resp => exact Or.inl ⟨resp, rfl⟩
    | error e => exact Or.inr ⟨e, rfl⟩
  · intro mn r data s hp hn hok hj hex
    have hcl : (call_llm cfg net req.messages req.model).1 = .ok (.str s) := by
      unfold call_llm
      rw [hp]
      simp only [if_pos rfl]
      unfold call_ollama
      rw [hn]
      simp [hok, hj, hex]
    unfold chat
    rw [hcl]
  · intro mn msgs r data v hk hn hok hj hex
    unfold call_openai
    rw [hk]
    rw [hn]
    simp [hok, hj, hex]
  · intro mn msgs r data v hk hn hok hj hex
    unfold call_deepseek
    rw [hk]
    rw [hn]
    simp [hok, hj, hex]

/-- Witness for C7: the scenario of §8 of the spec, a request routed to
`ollama/qwen2.5:7b` whose backend returns a well-formed body with
content `"hello"`, answered with exactly that reply. -/
theorem C7_complete_or_failure_witness :
    chat testConfig okNet ⟨"t1", [⟨"user", "hi"⟩], some "ollama/qwen2.5:7b"⟩ =
      .ok ⟨"t1", "hello"⟩ := by
  have h := C7_complete_or_failure testConfig okNet
    ⟨"t1", [⟨"user", "hi"⟩], some "ollama/qwen2.5:7b"⟩
  exact h.2.1 "qwen2.5:7b"
    ⟨200, "\x7b\"message\": \x7b\"content\": \"hello\"\x7d\x7d", some okData⟩
    okData "hello" rfl rfl rfl rfl rfl

/-- C9: whenever the gateway returns a success response, its
`thread_id` field equals the `thread_id` field of the request,
unchanged, for every request (including empty and non-ASCII thread
ids). -/
theorem C9_thread_id_echoed (cfg : Config) (net : Network) (req : ChatRequest)
    (resp : ChatResponse) (h : chat cfg net req = .ok resp) :
    resp.thread_id = req.thread_id := by
  unfold chat at h
  cases hcl : (call_llm cfg net req.messages req.model).1 with
  | error e =>
    rw [hcl] at h
    simp at h
  | ok v =>
    rw [hcl] at h
    cases v with
    | str s =>
      simp at h
      rw [← h]
    | null => simp at h
    | bool b => simp at h
    | num n => simp at h
    | arr xs => simp at h
    | obj fs => simp at h

/-- Witness for C9 at a non-ASCII thread id. -/
theorem C9_thread_id_echoed_witness :
    (ChatResponse.mk "スレッド-1" "hello").thread_id =
      (ChatRequest.mk "スレッド-1" [⟨"user", "hi"⟩] (some "ollama/qwen2.5:7b")).thread_id :=
  C9_thread_id_echoed testConfig okNet
    ⟨"スレッド-1", [⟨"user", "hi"⟩], some "ollama/qwen2.5:7b"⟩
    ⟨"スレッド-1", "hello"⟩ rfl

/-- C10: whenever the backend responds with a success status but a body
that is not valid JSON, the decode step (`resp.json()`) runs before the
exception handler around the field lookup, so every adapter fails with
a raw decode error that is not an `HTTPException` of any status and
detail — it escapes the normalized error taxonomy instead of being
reported as the 500 malformed-response failure. -/
theorem C10_decode_escapes_taxonomy (cfg : Config) (net : Network) (mn : String)
    (msgs : List Message) (r : HttpResponse)
    (hst : respOk r.status_code = true)
    (hj : r.json = none)
    (hO : net.ollama (ollamaPayload mn msgs) = .resp r)
    (hA : net.openai (openaiPayload mn msgs) = .resp r)
    (hD : net.deepseek (deepseekPayload mn msgs) = .resp r)
    (hko : falsyKey cfg.openaiKey = false)
    (hkd : falsyKey cfg.deepseekKey = false) :
    (call_ollama net mn msgs).1 = .error (.decodeError r.text) ∧
    (call_openai cfg net mn msgs).1 = .error (.decodeError r.text) ∧
    (call_deepseek cfg net mn msgs).1 = .error (.decodeError r.text) ∧
    (∀ e : HTTPException, PyFailure.decodeError r.text ≠ .httpExc e) := by
  refine ⟨?_, ?_, ?_, fun e h => by cases h⟩
  · unfold call_ollama
    rw [hO]
    simp [hst, hj]
  · unfold call_openai
    rw [hko]
    rw [hA]
    simp [hst, hj]
  · unfold call_deepseek
    rw [hkd]
    rw [hD]
    simp [hst, hj]

/-- Witness for C10 at a success response whose body is not JSON. -/
theorem C10_decode_escapes_taxonomy_witness :
    (call_ollama (constNet (.resp ⟨200, "<html>not json</html>", none⟩)) "m" []).1 =
      .error (.decodeError "<html>not json</html>") ∧
    (call_openai testConfig (constNet (.resp ⟨200, "<html>not json</html>", none⟩)) "m" []).1 =
      .error (.decodeError "<html>not json</html>") ∧
    PyFailure.decodeError "<html>not json</html>" ≠
      .httpExc ⟨500, "Unexpected Ollama response format"⟩ := by
  have h := C10_decode_escapes_taxonomy testConfig
    (constNet (.resp ⟨200, "<html>not json</html>", none⟩)) "m" []
    ⟨200, "<html>not json</html>", none⟩ rfl rfl rfl rfl rfl rfl rfl
  exact ⟨h.1, h.2.1, h.2.2.2 ⟨500, "Unexpected Ollama response format"⟩⟩

end BranchingChat
